import Mathlib

/-!
Shallow embedding of the transaction lifecycle engine of the crypto-escrow
application (`src/src/App.jsx`).  The transition handlers there are Firestore
`updateDoc`/`setDoc`/`deleteDoc` calls on a single transaction document; we
model the document as a Lean structure and each handler as the pure update it
performs on that document.  The role/status gating of the application lives in
the JSX render conditions (which button is shown to which viewer); those
conditions are embedded as the `avail` predicate below.  The Firestore
collection is modelled as an association list keyed by document id.
-/

namespace CryptoEscrow

/-- The `role` field of the create form and the stored `creatorRole` /
`invitedRole` fields; the source uses the strings "seller" and "buyer". -/
inductive Role where
  | seller
  | buyer
deriving DecidableEq, Repr

/-- Embeds `txForm.role === "seller" ? "buyer" : "seller"` (App.jsx line 322). -/
def complementRole : Role → Role
  | .seller => .buyer
  | .buyer => .seller

/-- The status strings stored in the `status` field of a transaction
document (App.jsx: STATUS_PROGRESS keys and the handlers). -/
inductive TxStatus where
  | pending_acceptance
  | waiting_payment
  | awaiting_confirmation
  | payment_received
  | goods_released
  | completed
  | rejected
  | under_review
  | refunded
deriving DecidableEq, Repr

/-- The transaction document (`txData` built in `createTransaction`,
App.jsx lines 318-337). -/
structure Transaction where
  id : String
  creator : String
  creatorRole : Role
  invited : String
  invitedRole : Role
  amount : Int
  currency : String
  terms : String
  status : TxStatus
  escrowWallet : String
  sellerWallet : String
  buyerWallet : String
  participants : List String
  paymentSent : Bool
  paymentReceived : Bool
  goodsReleased : Bool
  buyerApproved : Bool
  completed : Bool
deriving DecidableEq, Repr

/-- A user document (`users/{uid}`), as written at signup (App.jsx
lines 265-271): email, username, wallet, isAdmin. -/
structure UserProfile where
  email : String
  username : String
  wallet : String
  isAdmin : Bool
deriving DecidableEq, Repr

/-- Embeds `const ESCROW_WALLET = "bc1qsjk265qpnpzndl8439tmelxzgd8qnnwewrkrf7"`. -/
def ESCROW_WALLET : String := "bc1qsjk265qpnpzndl8439tmelxzgd8qnnwewrkrf7"

/-! ## Primary document updates performed by each handler

Each handler in App.jsx performs a single unconditional `updateDoc` on
`transactions/{txId}`; the functions below are those updates. -/

/-- Embeds `acceptTransaction` (App.jsx lines 367-392): sets status and fills the
invited party's wallet field from the caller's profile wallet
(`userProfile.wallet`), keeping the other wallet field. -/
def acceptTransaction (callerWallet : String) (tx : Transaction) : Transaction :=
  { tx with
    status := .waiting_payment
    sellerWallet := if tx.invitedRole = .seller then callerWallet else tx.sellerWallet
    buyerWallet := if tx.invitedRole = .buyer then callerWallet else tx.buyerWallet }

/-- Embeds `markPaymentSent` (App.jsx lines 394-428): `paymentSent: true,
status: "awaiting_confirmation"`. -/
def markPaymentSent (tx : Transaction) : Transaction :=
  { tx with paymentSent := true, status := .awaiting_confirmation }

/-- Embeds `markPaymentReceived` (App.jsx lines 430-450): `paymentReceived: true,
status: "payment_received"`. -/
def markPaymentReceived (tx : Transaction) : Transaction :=
  { tx with paymentReceived := true, status := .payment_received }

/-- Embeds `markGoodsReleased` (App.jsx lines 452-471): `goodsReleased: true,
status: "goods_released"`. -/
def markGoodsReleased (tx : Transaction) : Transaction :=
  { tx with goodsReleased := true, status := .goods_released }

/-- Embeds `approveFunds` (App.jsx lines 473-493): `buyerApproved: true,
completed: true, status: "completed"`. -/
def approveFunds (tx : Transaction) : Transaction :=
  { tx with buyerApproved := true, completed := true, status := .completed }

/-- Embeds `rejectTransaction` (App.jsx lines 495-513): `status: "rejected"`. -/
def rejectTransaction (tx : Transaction) : Transaction :=
  { tx with status := .rejected }

/-- Embeds `markUnderReview` (App.jsx lines 533-553): `status: "under_review"`. -/
def markUnderReview (tx : Transaction) : Transaction :=
  { tx with status := .under_review }

/-- Embeds `markRefunded` (App.jsx lines 556-571): `status: "refunded",
completed: false`. -/
def markRefunded (tx : Transaction) : Transaction :=
  { tx with status := .refunded, completed := false }

/-- Embeds `canDeleteTransaction` (App.jsx lines 707-715): membership of the
status in the deletable list; this is the only guard on the delete
button, and it checks status only. -/
def canDeleteTransaction (tx : Transaction) : Bool :=
  [TxStatus.rejected, .pending_acceptance, .waiting_payment,
    .awaiting_confirmation].contains tx.status

/-! ## The Firestore `transactions` collection -/

/-- The `transactions` collection, as an association list keyed by doc id
(Firestore document ids are unique within a collection). -/
abbrev TxStore := List (String × Transaction)

/-- Firestore `setDoc`: create the document or replace it wholesale. -/
def setDoc : TxStore → String → Transaction → TxStore
  | [], k, v => [(k, v)]
  | p :: s, k, v => if p.1 = k then (k, v) :: s else p :: setDoc s k v

/-- Firestore `getDoc` on the `transactions` collection. -/
def getDoc (s : TxStore) (k : String) : Option Transaction :=
  Option.map Prod.snd (List.find? (fun p => p.1 = k) s)

/-- Firestore `deleteDoc`, as used by `deleteTransaction` (App.jsx lines
515-530): removes the document unconditionally; the handler performs no
status or participant check of its own. -/
def deleteDoc (s : TxStore) (k : String) : TxStore :=
  List.filter (fun p => ¬ p.1 = k) s

/-! ## `createTransaction` (App.jsx lines 301-365) -/

/-- Embeds `const txId = "TX" + Date.now()` (App.jsx line 317); `now` is the
wall-clock time in milliseconds. -/
def mkTxId (now : Nat) : String := "TX" ++ toString now

/-- JS `String.prototype.toLowerCase()` as used on the invite email and
the stored emails (App.jsx line 305), written as a character map so it
evaluates by kernel reduction. -/
def lowerStr (s : String) : String := String.mk (List.map Char.toLower s.data)

/-- The arguments of the create form (`txForm`). -/
structure TxForm where
  role : Role
  amount : Int
  currency : String
  terms : String
  inviteEmail : String

/-- The body of `createTransaction`: resolve the invite email against the
`allUsers` map, refuse an unknown email or a self-invite, and otherwise
build `txData` exactly as App.jsx lines 317-337 does.  Returns the new
document id and document, or `none` on the two early-return paths. -/
def createTransaction (allUsers : List (String × UserProfile))
    (currentUid : String) (profile : UserProfile) (form : TxForm)
    (now : Nat) : Option (String × Transaction) :=
  match List.find? (fun p => lowerStr p.2.email = lowerStr form.inviteEmail) allUsers with
  | none => none
  | some (invitedUid, _) =>
    if invitedUid = currentUid then none
    else
      some (mkTxId now,
        { id := mkTxId now
          creator := currentUid
          creatorRole := form.role
          invited := invitedUid
          invitedRole := complementRole form.role
          amount := form.amount
          currency := form.currency
          terms := form.terms
          status := .pending_acceptance
          escrowWallet := ESCROW_WALLET
          sellerWallet := if form.role = .seller then profile.wallet else ""
          buyerWallet := if form.role = .buyer then profile.wallet else ""
          participants := [currentUid, invitedUid]
          paymentSent := false
          paymentReceived := false
          goodsReleased := false
          buyerApproved := false
          completed := false })

/-! ## Action availability: the JSX render conditions

The application exposes each handler through a button; which buttons are
rendered for a given viewer and transaction is decided by the JSX
conditions on the details page (App.jsx lines 1524-1760) and the admin
panel (lines 1861-1976).  A viewer has the transaction in scope at all
when the subscription query matches (admin: all transactions; regular
user: `participants array-contains uid`, App.jsx lines 169-178). -/

/-- A logged-in viewer: their uid and profile. -/
structure Viewer where
  uid : String
  isAdmin : Bool
  wallet : String
deriving DecidableEq, Repr

/-- The engine actions reachable through the UI (delete and create are
modelled separately on the store). -/
inductive Action where
  | accept
  | reject
  | payment_sent
  | confirm_payment
  | release_goods
  | approve_release
  | under_review
  | refund
deriving DecidableEq, Repr

/-- Embeds `isCreator` as computed on the details page (line 1343). -/
def isCreator (v : Viewer) (tx : Transaction) : Bool := tx.creator = v.uid

/-- Embeds `userRole` as computed on the details page (line 1344). -/
def userRole (v : Viewer) (tx : Transaction) : Role :=
  if isCreator v tx then tx.creatorRole else tx.invitedRole

/-- Whether the subscription query delivers `tx` to viewer `v` (App.jsx
lines 169-178): admins subscribe to all transactions, other users to those
whose `participants` array contains their uid. -/
def canView (v : Viewer) (tx : Transaction) : Bool :=
  v.isAdmin || tx.participants.contains v.uid

/-- The render condition of the button that invokes each handler:
  * accept / reject: `tx.status === "pending_acceptance" && !isCreator`
    (lines 1526-1540);
  * payment sent: `tx.status === "waiting_payment" && isSeller &&
    !tx.paymentSent` (lines 1543-1570);
  * release goods: `tx.status === "payment_received" && isSeller &&
    !tx.goodsReleased` (lines 1602-1623);
  * approve release: `tx.status === "goods_released" && isBuyer &&
    !tx.buyerApproved` (lines 1640-1665);
  * confirm payment / under review / refund: rendered for every
    transaction whenever `isAdmin` (details page lines 1731-1760); the
    admin-panel confirm button is additionally gated by
    `tx.paymentSent && !tx.paymentReceived` (lines 1912-1924) but the
    ungated details-page button subsumes it. -/
def avail (v : Viewer) (a : Action) (tx : Transaction) : Bool :=
  match a with
  | .accept => tx.status = .pending_acceptance && !(isCreator v tx)
  | .reject => tx.status = .pending_acceptance && !(isCreator v tx)
  | .payment_sent =>
      tx.status = .waiting_payment && userRole v tx = .seller && !tx.paymentSent
  | .confirm_payment => v.isAdmin
  | .release_goods =>
      tx.status = .payment_received && userRole v tx = .seller && !tx.goodsReleased
  | .approve_release =>
      tx.status = .goods_released && userRole v tx = .buyer && !tx.buyerApproved
  | .under_review => v.isAdmin
  | .refund => v.isAdmin

/-- The document update the button's handler performs. -/
def applyAction (v : Viewer) (a : Action) (tx : Transaction) : Transaction :=
  match a with
  | .accept => acceptTransaction v.wallet tx
  | .reject => rejectTransaction tx
  | .payment_sent => markPaymentSent tx
  | .confirm_payment => markPaymentReceived tx
  | .release_goods => markGoodsReleased tx
  | .approve_release => approveFunds tx
  | .under_review => markUnderReview tx
  | .refund => markRefunded tx

/-- One UI-gated engine step: some viewer who has the transaction in
scope clicks an available button. -/
def Step (tx tx' : Transaction) : Prop :=
  ∃ v a, canView v tx = true ∧ avail v a tx = true ∧ tx' = applyAction v a tx

/-- Zero or more UI-gated engine steps. -/
def Reachable : Transaction → Transaction → Prop := Relation.ReflTransGen Step

/-- Embeds `deleteTransaction` (App.jsx lines 515-530): a `window.confirm` prompt
followed by an unconditional `deleteDoc`; the handler itself checks
neither the status nor the caller. -/
def deleteTransaction (confirmed : Bool) (s : TxStore) (txId : String) : TxStore :=
  if confirmed then deleteDoc s txId else s

/-! ## Side-effect model: audit log and notification fan-out

`createNotification` and `addAuditLog` (App.jsx lines 221-246) each wrap
their single `addDoc` in a `try`/`catch` that logs and swallows the
failure; every transition handler performs its `updateDoc` first and the
audit/notification writes afterwards, all inside an outer `try`/`catch`
that also only logs.  We model a run of a handler against a world (the
transaction store plus the audit and notification collections) relative
to an arbitrary failure pattern describing which store round-trips
throw. -/

/-- A document of `transactions/{txId}/audit` (App.jsx lines 237-242). -/
structure AuditEntry where
  actor : Option String
  action : String
  meta : List (String × String)
deriving DecidableEq, Repr

/-- A document of `users/{uid}/notifications` (App.jsx lines 223-228). -/
structure NotificationDoc where
  message : String
  txId : Option String
  read : Bool
deriving DecidableEq, Repr

/-- The store state a handler run touches: the `transactions` collection,
the audit subcollections (tagged by parent transaction id) and the
notification subcollections (tagged by recipient uid), the latter two in
append order. -/
structure World where
  txs : TxStore
  audit : List (String × AuditEntry)
  notifs : List (String × NotificationDoc)
deriving DecidableEq, Repr

/-- Which store round-trips of one handler run throw: the audit `addDoc`,
the snapshot `getDoc`, and the k-th notification `addDoc`. -/
structure Failures where
  auditFails : Bool
  getFails : Bool
  notifFails : Nat → Bool

/-- Firestore `updateDoc` on `transactions/{k}`: merges fields into an
existing document, throwing if the document does not exist.  Returns the
resulting collection and whether the write was accepted. -/
def updateTx (s : TxStore) (k : String) (upd : Transaction → Transaction) :
    TxStore × Bool :=
  if List.any s (fun p => p.1 = k) then
    (List.map (fun p => if p.1 = k then (k, upd p.2) else p) s, true)
  else (s, false)

/-- Embeds `createNotification` (App.jsx lines 221-233): one `addDoc` with
`read: false`; a failure is caught and logged, leaving the world as it
was. -/
def createNotification (fails : Bool) (recipientUid message : String)
    (txId : Option String) (w : World) : World :=
  if fails then w
  else { w with notifs := w.notifs ++ [(recipientUid, ⟨message, txId, false⟩)] }

/-- Embeds `addAuditLog` (App.jsx lines 235-246): one `addDoc`; a failure is
caught and logged, leaving the world as it was. -/
def addAuditLog (fails : Bool) (txId : String) (actorUid : Option String)
    (action : String) (meta : List (String × String)) (w : World) : World :=
  if fails then w
  else { w with audit := w.audit ++ [(txId, ⟨actorUid, action, meta⟩)] }

/-- A `for ... of` loop issuing one `createNotification` per recipient
with a fixed message (the participant and admin fan-out loops); the k-th
call uses the k-th failure flag. -/
def notifyEach (fails : Nat → Bool) : Nat → List String → String →
    Option String → World → World
  | _, [], _, _, w => w
  | k, r :: rs, message, txId, w =>
      notifyEach fails (k + 1) rs message txId
        (createNotification (fails k) r message txId w)

/-- Embeds `acceptTransaction` in full (App.jsx lines 367-392): `getDoc` first
(early return when missing), then the `updateDoc`, then audit, then one
notification to the creator.  A throw anywhere is caught by the outer
`catch` and logged. -/
def acceptTransactionFull (f : Failures) (caller : Viewer) (username : String)
    (txId : String) (w : World) : World :=
  if f.getFails then w else
  match getDoc w.txs txId with
  | none => w
  | some tx =>
    let u := updateTx w.txs txId (acceptTransaction caller.wallet)
    if u.2 then
      let w1 := { w with txs := u.1 }
      let w2 := addAuditLog f.auditFails txId (some caller.uid)
        "accepted_transaction" [] w1
      createNotification (f.notifFails 0) tx.creator
        (username ++ " accepted the escrow (" ++ txId ++ ").") (some txId) w2
    else w

/-- Embeds `markPaymentSent` in full (App.jsx lines 394-428): `updateDoc`,
audit, `getDoc`, then (unless the caller is an admin) a notification to
the other party and one per admin uid. -/
def markPaymentSentFull (f : Failures) (caller : Viewer) (username : String)
    (allUsers : List (String × UserProfile)) (txId : String) (w : World) : World :=
  let u := updateTx w.txs txId markPaymentSent
  if u.2 then
    let w1 := { w with txs := u.1 }
    let w2 := addAuditLog f.auditFails txId (some caller.uid)
      "marked_payment_sent" [] w1
    if f.getFails then w2 else
    match getDoc w2.txs txId with
    | none => w2
    | some tx =>
      let other := if tx.creator = caller.uid then tx.invited else tx.creator
      if caller.isAdmin then w2
      else
        let w3 := createNotification (f.notifFails 0) other
          (username ++ " marked payment as sent for " ++ txId) (some txId) w2
        let adminIds := List.map Prod.fst
          (List.filter (fun p => p.2.isAdmin) allUsers)
        notifyEach f.notifFails 1 adminIds
          ("Payment marked as sent for " ++ txId ++ ". Please verify.")
          (some txId) w3
  else w

/-- Embeds `markPaymentReceived` in full (App.jsx lines 430-450): `updateDoc`,
audit, `getDoc`, one notification per participant. -/
def markPaymentReceivedFull (f : Failures) (caller : Viewer) (txId : String)
    (w : World) : World :=
  let u := updateTx w.txs txId markPaymentReceived
  if u.2 then
    let w1 := { w with txs := u.1 }
    let w2 := addAuditLog f.auditFails txId (some caller.uid)
      "admin_confirmed_payment" [] w1
    if f.getFails then w2 else
    match getDoc w2.txs txId with
    | none => w2
    | some tx =>
      notifyEach f.notifFails 0 tx.participants
        ("Admin confirmed payment received for " ++ txId) (some txId) w2
  else w

/-- Embeds `markGoodsReleased` in full (App.jsx lines 452-471): `updateDoc`,
audit, `getDoc`, one notification to the buyer. -/
def markGoodsReleasedFull (f : Failures) (caller : Viewer) (txId : String)
    (w : World) : World :=
  let u := updateTx w.txs txId markGoodsReleased
  if u.2 then
    let w1 := { w with txs := u.1 }
    let w2 := addAuditLog f.auditFails txId (some caller.uid)
      "marked_goods_released" [] w1
    if f.getFails then w2 else
    match getDoc w2.txs txId with
    | none => w2
    | some tx =>
      let buyer := if tx.creatorRole = .buyer then tx.creator else tx.invited
      createNotification (f.notifFails 0) buyer
        ("Seller released goods for " ++ txId) (some txId) w2
  else w

/-- Embeds `approveFunds` in full (App.jsx lines 473-493): `updateDoc`, audit,
`getDoc`, one notification to the seller. -/
def approveFundsFull (f : Failures) (caller : Viewer) (txId : String)
    (w : World) : World :=
  let u := updateTx w.txs txId approveFunds
  if u.2 then
    let w1 := { w with txs := u.1 }
    let w2 := addAuditLog f.auditFails txId (some caller.uid)
      "buyer_approved_release" [] w1
    if f.getFails then w2 else
    match getDoc w2.txs txId with
    | none => w2
    | some tx =>
      let seller := if tx.creatorRole = .seller then tx.creator else tx.invited
      createNotification (f.notifFails 0) seller
        ("Buyer approved release for " ++ txId ++ ". Funds released.")
        (some txId) w2
  else w

/-- Embeds `rejectTransaction` in full (App.jsx lines 495-513): `updateDoc`,
audit, `getDoc`, one notification to the other party. -/
def rejectTransactionFull (f : Failures) (caller : Viewer) (username : String)
    (txId : String) (w : World) : World :=
  let u := updateTx w.txs txId rejectTransaction
  if u.2 then
    let w1 := { w with txs := u.1 }
    let w2 := addAuditLog f.auditFails txId (some caller.uid)
      "rejected_transaction" [] w1
    if f.getFails then w2 else
    match getDoc w2.txs txId with
    | none => w2
    | some tx =>
      let other := if tx.creator = caller.uid then tx.invited else tx.creator
      createNotification (f.notifFails 0) other
        (username ++ " rejected transaction " ++ txId) (some txId) w2
  else w

/-- Embeds `markUnderReview` in full (App.jsx lines 533-553): `updateDoc`, audit
(with the reason), `getDoc`, one notification per participant. -/
def markUnderReviewFull (f : Failures) (caller : Viewer) (txId reason : String)
    (w : World) : World :=
  let u := updateTx w.txs txId markUnderReview
  if u.2 then
    let w1 := { w with txs := u.1 }
    let w2 := addAuditLog f.auditFails txId (some caller.uid)
      "marked_under_review" [("reason", reason)] w1
    if f.getFails then w2 else
    match getDoc w2.txs txId with
    | none => w2
    | some tx =>
      notifyEach f.notifFails 0 tx.participants
        ("Admin marked " ++ txId ++ " as Under Review.") (some txId) w2
  else w

/-- Embeds `markRefunded` in full (App.jsx lines 556-571): `updateDoc`, audit
(with the reason), `getDoc`, one notification per participant. -/
def markRefundedFull (f : Failures) (caller : Viewer) (txId reason : String)
    (w : World) : World :=
  let u := updateTx w.txs txId markRefunded
  if u.2 then
    let w1 := { w with txs := u.1 }
    let w2 := addAuditLog f.auditFails txId (some caller.uid)
      "marked_refunded" [("reason", reason)] w1
    if f.getFails then w2 else
    match getDoc w2.txs txId with
    | none => w2
    | some tx =>
      notifyEach f.notifFails 0 tx.participants
        ("Admin marked " ++ txId ++ " as Refunded.") (some txId) w2
  else w

/-! ## Notification read-flag updates (App.jsx lines 625-658) -/

/-- One user's `notifications` subcollection, keyed by doc id. -/
abbrev NotifStore := List (String × NotificationDoc)

/-- Embeds `markNotificationRead` (App.jsx lines 625-636): `updateDoc` setting
`read: true` on `users/{uid}/notifications/{notId}`.  `updateDoc` throws
on a missing document; the handler catches and logs.  Returns the
resulting collection and whether the update was accepted. -/
def markNotificationRead (s : NotifStore) (notId : String) : NotifStore × Bool :=
  if List.any s (fun p => p.1 = notId) then
    (List.map (fun p => if p.1 = notId then (p.1, { p.2 with read := true }) else p) s,
      true)
  else (s, false)

/-! ## The spec's transition table, for comparison -/

/-- Modelled from the spec: the precondition column of the transition
table in §4.1, for the engine actions other than create and delete.
This follows the spec's words only, so that the gated behaviour embedded
from the source can be compared against it. -/
def specTransitionPre (a : Action) (tx : Transaction) : Bool :=
  match a with
  | .accept => tx.status = .pending_acceptance
  | .reject => tx.status = .pending_acceptance
  | .payment_sent => tx.status = .waiting_payment && tx.paymentSent = false
  | .confirm_payment => tx.paymentSent = true && tx.paymentReceived = false
  | .release_goods => tx.status = .payment_received && tx.goodsReleased = false
  | .approve_release => tx.status = .goods_released && tx.buyerApproved = false
  | .under_review =>
      !(tx.status = .completed || tx.status = .rejected || tx.status = .refunded)
  | .refund => !(tx.status = .rejected)

/-! ## Lifecycle invariant -/

/-- The status/flag coupling that UI-gated action sequences maintain:
the three late statuses imply their flags, `goodsReleased` implies
`paymentReceived` (goods are only releasable from `payment_received`,
which always carries `paymentReceived = true`), and `completed = true`
implies `goodsReleased = true` (approval is only offered from
`goods_released`). -/
def statusInv (tx : Transaction) : Prop :=
  (tx.status = .payment_received → tx.paymentReceived = true) ∧
  (tx.status = .goods_released → tx.goodsReleased = true) ∧
  (tx.status = .completed → tx.goodsReleased = true ∧ tx.completed = true) ∧
  (tx.goodsReleased = true → tx.paymentReceived = true) ∧
  (tx.completed = true → tx.goodsReleased = true)

/-! ## Concrete fixtures -/

/-- Two registered users for concrete runs. -/
def demoUsers : List (String × UserProfile) :=
  [("alice", ⟨"a@x.com", "alice", "wA", false⟩),
   ("bob", ⟨"b@x.com", "bob", "wB", false⟩)]

/-- Alice's profile. -/
def aliceProfile : UserProfile := ⟨"a@x.com", "alice", "wA", false⟩

/-- A concrete create form: alice as seller invites b@x.com. -/
def demoForm : TxForm := ⟨.seller, 1, "BTC", "deliver the goods", "b@x.com"⟩

/-- The transaction `createTransaction demoUsers "alice" aliceProfile
demoForm 1700000000000` stores. -/
def freshTx : Transaction :=
  { id := "TX1700000000000", creator := "alice", creatorRole := .seller,
    invited := "bob", invitedRole := .buyer, amount := 1, currency := "BTC",
    terms := "deliver the goods", status := .pending_acceptance,
    escrowWallet := ESCROW_WALLET, sellerWallet := "wA", buyerWallet := "",
    participants := ["alice", "bob"], paymentSent := false,
    paymentReceived := false, goodsReleased := false, buyerApproved := false,
    completed := false }

/-- An admin viewer. -/
def adminViewer : Viewer := ⟨"root", true, "wR"⟩

/-- A viewer who is alice (a regular user). -/
def aliceViewer : Viewer := ⟨"alice", false, "wA"⟩

/-- A viewer who is bob (a regular user). -/
def bobViewer : Viewer := ⟨"bob", false, "wB"⟩

/-- Bob's profile. -/
def bobProfile : UserProfile := ⟨"b@x.com", "bob", "wB", false⟩

/-- A failure pattern in which every side-effect round-trip throws. -/
def allFail : Failures := ⟨true, true, fun _ => true⟩

/-- A world holding just the fresh transaction. -/
def demoWorld : World := ⟨[("TX1700000000000", freshTx)], [], []⟩

/-- A small notification collection: one unread, one read. -/
def demoNotifs : NotifStore :=
  [("n1", ⟨"hello", some "TX1", false⟩), ("n2", ⟨"bye", none, true⟩)]

/-- A concrete create form: bob as buyer invites a@x.com. -/
def demoForm2 : TxForm := ⟨.buyer, 2, "ETH", "pay", "a@x.com"⟩

/-- The transaction `createTransaction demoUsers "bob" bobProfile
demoForm2 1700000000000` stores — at the same millisecond as `freshTx`,
hence under the same id. -/
def freshTx2 : Transaction :=
  { freshTx with
    creator := "bob", creatorRole := .buyer,
    invited := "alice", invitedRole := .seller,
    amount := 2, currency := "ETH", terms := "pay",
    sellerWallet := "", buyerWallet := "wB",
    participants := ["bob", "alice"] }

/-- A transaction sitting at `payment_received` whose creator alice is
the buyer. -/
def paidTx : Transaction :=
  { freshTx with
    creatorRole := .buyer, invitedRole := .seller,
    sellerWallet := "wB", buyerWallet := "wA",
    status := .payment_received, paymentSent := true, paymentReceived := true }

/-- A completed transaction. -/
def completedTx : Transaction :=
  { freshTx with
    status := .completed, paymentSent := true,
    paymentReceived := true, goodsReleased := true, buyerApproved := true,
    completed := true }

/-- A rejected transaction. -/
def rejectedTx : Transaction :=
  { freshTx with status := .rejected }

/-! ## Helper lemmas -/

/-- Unfolding of a successful `createTransaction`: the id is derived from
the clock and the stored document is exactly `txData`. -/
theorem createTransaction_spec {allUsers : List (String × UserProfile)}
    {uid : String} {profile : UserProfile} {form : TxForm} {now : Nat}
    {id : String} {tx : Transaction}
    (h : createTransaction allUsers uid profile form now = some (id, tx)) :
    id = mkTxId now ∧ tx.id = mkTxId now ∧ tx.creator = uid ∧
    tx.creatorRole = form.role ∧ tx.invitedRole = complementRole form.role ∧
    tx.invited ≠ uid ∧ tx.participants = [uid, tx.invited] ∧
    tx.status = .pending_acceptance ∧ tx.paymentSent = false ∧
    tx.paymentReceived = false ∧ tx.goodsReleased = false ∧
    tx.buyerApproved = false ∧ tx.completed = false := by
  unfold createTransaction at h
  split at h
  · exact absurd h (by simp)
  · next invitedUid u heq =>
    split at h
    · exact absurd h (by simp)
    · next hne =>
      rw [Option.some.injEq, Prod.mk.injEq] at h
      obtain ⟨h1, h2⟩ := h
      subst h1
      subst h2
      refine ⟨rfl, rfl, rfl, rfl, rfl, hne, rfl, rfl, rfl, rfl, rfl, rfl, rfl⟩

/-- The invariant `statusInv` holds for a freshly stored transaction. -/
theorem statusInv_create {allUsers : List (String × UserProfile)}
    {uid : String} {profile : UserProfile} {form : TxForm} {now : Nat}
    {id : String} {tx : Transaction}
    (h : createTransaction allUsers uid profile form now = some (id, tx)) :
    statusInv tx := by
  obtain ⟨-, -, -, -, -, -, -, hst, -, -, hg, -, hcm⟩ := createTransaction_spec h
  refine ⟨?_, ?_, ?_, ?_, ?_⟩ <;> intro hx
  · rw [hst] at hx; exact absurd hx (by simp)
  · rw [hst] at hx; exact absurd hx (by simp)
  · rw [hst] at hx; exact absurd hx (by simp)
  · rw [hg] at hx; exact absurd hx (by simp)
  · rw [hcm] at hx; exact absurd hx (by simp)

/-- Every UI-gated step preserves `statusInv`. -/
theorem statusInv_step {tx tx' : Transaction} (hinv : statusInv tx)
    (h : Step tx tx') : statusInv tx' := by
  obtain ⟨v, a, -, havail, rfl⟩ := h
  obtain ⟨h1, h2, h3, h4, h5⟩ := hinv
  cases a with
  | accept =>
      simp only [applyAction, acceptTransaction, statusInv]
      exact ⟨by simp, by simp, by simp, h4, h5⟩
  | reject =>
      simp only [applyAction, rejectTransaction, statusInv]
      exact ⟨by simp, by simp, by simp, h4, h5⟩
  | payment_sent =>
      simp only [applyAction, markPaymentSent, statusInv]
      exact ⟨by simp, by simp, by simp, h4, h5⟩
  | confirm_payment =>
      simp only [applyAction, markPaymentReceived, statusInv]
      exact ⟨fun _ => trivial, by simp, by simp, fun _ => trivial, h5⟩
  | release_goods =>
      simp only [avail, Bool.and_eq_true, decide_eq_true_eq] at havail
      obtain ⟨⟨hst, -⟩, -⟩ := havail
      simp only [applyAction, markGoodsReleased, statusInv]
      exact ⟨by simp, fun _ => trivial, by simp, fun _ => h1 hst, fun _ => trivial⟩
  | approve_release =>
      simp only [avail, Bool.and_eq_true, decide_eq_true_eq] at havail
      obtain ⟨⟨hst, -⟩, -⟩ := havail
      simp only [applyAction, approveFunds, statusInv]
      exact ⟨by simp, by simp, fun _ => ⟨h2 hst, trivial⟩, h4, fun _ => h2 hst⟩
  | under_review =>
      simp only [applyAction, markUnderReview, statusInv]
      exact ⟨by simp, by simp, by simp, h4, h5⟩
  | refund =>
      simp only [applyAction, markRefunded, statusInv]
      exact ⟨by simp, by simp, by simp, h4, by simp⟩

/-- A notification write never touches the `transactions` collection. -/
@[simp] theorem createNotification_txs (b : Bool) (r m : String)
    (t : Option String) (w : World) :
    (createNotification b r m t w).txs = w.txs := by
  unfold createNotification; split <;> rfl

/-- An audit write never touches the `transactions` collection. -/
@[simp] theorem addAuditLog_txs (b : Bool) (txId : String) (a : Option String)
    (act : String) (meta : List (String × String)) (w : World) :
    (addAuditLog b txId a act meta w).txs = w.txs := by
  unfold addAuditLog; split <;> rfl

/-- A notification fan-out loop never touches the `transactions`
collection. -/
@[simp] theorem notifyEach_txs (fails : Nat → Bool) (k : Nat) (rs : List String)
    (message : String) (txId : Option String) (w : World) :
    (notifyEach fails k rs message txId w).txs = w.txs := by
  induction rs generalizing k w with
  | nil => rfl
  | cons r rs ih => simp [notifyEach, ih]

/-- A rejected `updateDoc` leaves the collection as it was. -/
theorem updateTx_fst_of_fail {s : TxStore} {k : String}
    {u : Transaction → Transaction} (h : (updateTx s k u).2 = false) :
    (updateTx s k u).1 = s := by
  by_cases hc : List.any s (fun p => p.1 = k) = true
  · simp [updateTx, hc] at h
  · simp only [Bool.not_eq_true] at hc
    simp [updateTx, hc]

/-- Whatever side-effect writes fail, a `markPaymentReceived` run leaves
the `transactions` collection exactly as the primary `updateDoc` left
it. -/
theorem markPaymentReceivedFull_txs (f : Failures) (caller : Viewer)
    (txId : String) (w : World) :
    (markPaymentReceivedFull f caller txId w).txs
      = (updateTx w.txs txId markPaymentReceived).1 := by
  unfold markPaymentReceivedFull
  by_cases h2 : (updateTx w.txs txId markPaymentReceived).2 = true
  · simp only [h2, if_true]
    split
    · simp
    · split <;> simp
  · simp only [Bool.not_eq_true] at h2
    simp [h2, updateTx_fst_of_fail h2]

/-- A document is invisible to `getDoc` exactly when no key of the
collection matches. -/
theorem getDoc_none_iff (s : TxStore) (k : String) :
    getDoc s k = none ↔ List.any s (fun p => p.1 = k) = false := by
  simp [getDoc, List.find?_eq_none, List.any_eq_false]

/-- Firestore `updateDoc` on a missing document is rejected and changes nothing. -/
theorem updateTx_of_getDoc_none {s : TxStore} {k : String}
    {u : Transaction → Transaction} (h : getDoc s k = none) :
    updateTx s k u = (s, false) := by
  rw [getDoc_none_iff] at h
  simp [updateTx, h]

/-- Whatever side-effect writes fail, a `markPaymentSent` run leaves the
`transactions` collection exactly as the primary `updateDoc` left it. -/
theorem markPaymentSentFull_txs (f : Failures) (caller : Viewer)
    (username : String) (allUsers : List (String × UserProfile))
    (txId : String) (w : World) :
    (markPaymentSentFull f caller username allUsers txId w).txs
      = (updateTx w.txs txId markPaymentSent).1 := by
  unfold markPaymentSentFull
  by_cases h2 : (updateTx w.txs txId markPaymentSent).2 = true
  · simp only [h2, if_true]
    split
    · simp
    · split
      · simp
      · split <;> simp
  · simp only [Bool.not_eq_true] at h2
    simp [h2, updateTx_fst_of_fail h2]

/-- Whatever side-effect writes fail, a `markGoodsReleased` run leaves
the `transactions` collection exactly as the primary `updateDoc` left
it. -/
theorem markGoodsReleasedFull_txs (f : Failures) (caller : Viewer)
    (txId : String) (w : World) :
    (markGoodsReleasedFull f caller txId w).txs
      = (updateTx w.txs txId markGoodsReleased).1 := by
  unfold markGoodsReleasedFull
  by_cases h2 : (updateTx w.txs txId markGoodsReleased).2 = true
  · simp only [h2, if_true]
    split
    · simp
    · split <;> simp
  · simp only [Bool.not_eq_true] at h2
    simp [h2, updateTx_fst_of_fail h2]

/-- Whatever side-effect writes fail, an `approveFunds` run leaves the
`transactions` collection exactly as the primary `updateDoc` left it. -/
theorem approveFundsFull_txs (f : Failures) (caller : Viewer)
    (txId : String) (w : World) :
    (approveFundsFull f caller txId w).txs
      = (updateTx w.txs txId approveFunds).1 := by
  unfold approveFundsFull
  by_cases h2 : (updateTx w.txs txId approveFunds).2 = true
  · simp only [h2, if_true]
    split
    · simp
    · split <;> simp
  · simp only [Bool.not_eq_true] at h2
    simp [h2, updateTx_fst_of_fail h2]

/-- Whatever side-effect writes fail, a `rejectTransaction` run leaves
the `transactions` collection exactly as the primary `updateDoc` left
it. -/
theorem rejectTransactionFull_txs (f : Failures) (caller : Viewer)
    (username : String) (txId : String) (w : World) :
    (rejectTransactionFull f caller username txId w).txs
      = (updateTx w.txs txId rejectTransaction).1 := by
  unfold rejectTransactionFull
  by_cases h2 : (updateTx w.txs txId rejectTransaction).2 = true
  · simp only [h2, if_true]
    split
    · simp
    · split <;> simp
  · simp only [Bool.not_eq_true] at h2
    simp [h2, updateTx_fst_of_fail h2]

/-- Whatever side-effect writes fail, a `markUnderReview` run leaves the
`transactions` collection exactly as the primary `updateDoc` left it. -/
theorem markUnderReviewFull_txs (f : Failures) (caller : Viewer)
    (txId reason : String) (w : World) :
    (markUnderReviewFull f caller txId reason w).txs
      = (updateTx w.txs txId markUnderReview).1 := by
  unfold markUnderReviewFull
  by_cases h2 : (updateTx w.txs txId markUnderReview).2 = true
  · simp only [h2, if_true]
    split
    · simp
    · split <;> simp
  · simp only [Bool.not_eq_true] at h2
    simp [h2, updateTx_fst_of_fail h2]

/-- Whatever side-effect writes fail, a `markRefunded` run leaves the
`transactions` collection exactly as the primary `updateDoc` left it. -/
theorem markRefundedFull_txs (f : Failures) (caller : Viewer)
    (txId reason : String) (w : World) :
    (markRefundedFull f caller txId reason w).txs
      = (updateTx w.txs txId markRefunded).1 := by
  unfold markRefundedFull
  by_cases h2 : (updateTx w.txs txId markRefunded).2 = true
  · simp only [h2, if_true]
    split
    · simp
    · split <;> simp
  · simp only [Bool.not_eq_true] at h2
    simp [h2, updateTx_fst_of_fail h2]

/-- Provided the initial snapshot read succeeds, an `acceptTransaction`
run leaves the `transactions` collection exactly as the primary
`updateDoc` left it, whatever audit/notification writes fail. -/
theorem acceptTransactionFull_txs (f : Failures) (caller : Viewer)
    (username txId : String) (w : World) (hg : f.getFails = false) :
    (acceptTransactionFull f caller username txId w).txs
      = (updateTx w.txs txId (acceptTransaction caller.wallet)).1 := by
  unfold acceptTransactionFull
  simp only [hg, Bool.false_eq_true, if_false]
  cases hgd : getDoc w.txs txId with
  | none => rw [updateTx_of_getDoc_none hgd]
  | some tx =>
      by_cases h2 : (updateTx w.txs txId (acceptTransaction caller.wallet)).2 = true
      · simp [h2]
      · simp only [Bool.not_eq_true] at h2
        simp [h2, updateTx_fst_of_fail h2]

/-- When the transaction document does not exist, the primary update
cannot commit and a `markPaymentReceived` run writes no audit entry and
no notification: the world is unchanged. -/
theorem markPaymentReceivedFull_no_commit {f : Failures} {caller : Viewer}
    {txId : String} {w : World} (h : getDoc w.txs txId = none) :
    markPaymentReceivedFull f caller txId w = w := by
  unfold markPaymentReceivedFull
  rw [updateTx_of_getDoc_none h]
  simp

/-- When the transaction document does not exist, an `acceptTransaction`
run stops at the failed snapshot read and the world is unchanged. -/
theorem acceptTransactionFull_no_commit {f : Failures} {caller : Viewer}
    {username txId : String} {w : World} (h : getDoc w.txs txId = none) :
    acceptTransactionFull f caller username txId w = w := by
  unfold acceptTransactionFull
  split
  · rfl
  · rw [h]

/-- One UI-gated step never enters `completed` without `goodsReleased`
already set, never enters `goods_released` without `paymentReceived`
already set, and never raises the `completed` flag without
`goodsReleased` already set. -/
theorem step_no_skip {tx tx' : Transaction} (hinv : statusInv tx)
    (h : Step tx tx') :
    (tx'.status = .completed → tx.goodsReleased = true) ∧
    (tx'.status = .goods_released → tx.paymentReceived = true) ∧
    (tx'.completed = true → tx.goodsReleased = true) := by
  obtain ⟨v, a, -, havail, rfl⟩ := h
  obtain ⟨h1, h2, h3, h4, h5⟩ := hinv
  cases a with
  | accept =>
      simp only [applyAction, acceptTransaction]
      exact ⟨by simp, by simp, h5⟩
  | reject =>
      simp only [applyAction, rejectTransaction]
      exact ⟨by simp, by simp, h5⟩
  | payment_sent =>
      simp only [applyAction, markPaymentSent]
      exact ⟨by simp, by simp, h5⟩
  | confirm_payment =>
      simp only [applyAction, markPaymentReceived]
      exact ⟨by simp, by simp, h5⟩
  | release_goods =>
      simp only [avail, Bool.and_eq_true, decide_eq_true_eq] at havail
      obtain ⟨⟨hst, -⟩, -⟩ := havail
      simp only [applyAction, markGoodsReleased]
      exact ⟨by simp, fun _ => h1 hst, h5⟩
  | approve_release =>
      simp only [avail, Bool.and_eq_true, decide_eq_true_eq] at havail
      obtain ⟨⟨hst, -⟩, -⟩ := havail
      simp only [applyAction, approveFunds]
      exact ⟨fun _ => h2 hst, by simp, fun _ => h2 hst⟩
  | under_review =>
      simp only [applyAction, markUnderReview]
      exact ⟨by simp, by simp, h5⟩
  | refund =>
      simp only [applyAction, markRefunded]
      exact ⟨by simp, by simp, by simp⟩

/-- The invariant `statusInv` propagates along any UI-gated trajectory. -/
theorem statusInv_reachable {tx0 tx : Transaction} (h0 : statusInv tx0)
    (hr : Reachable tx0 tx) : statusInv tx := by
  induction hr with
  | refl => exact h0
  | tail _ h2 ih => exact statusInv_step ih h2

/-- After `setDoc`, reading the key back yields exactly the value just
written — also when the key already existed (the earlier document is
replaced). -/
theorem getDoc_setDoc_self (s : TxStore) (k : String) (v : Transaction) :
    getDoc (setDoc s k v) k = some v := by
  induction s with
  | nil => simp [setDoc, getDoc]
  | cons p s ih =>
      by_cases hp : p.1 = k
      · simp [setDoc, hp, getDoc]
      · simp only [setDoc, if_neg hp]
        simp only [getDoc] at ih ⊢
        rw [List.find?_cons_of_neg _ (by simpa using hp)]
        exact ih

/-- Deleting a key makes it invisible to `getDoc`. -/
theorem getDoc_deleteDoc (s : TxStore) (k : String) :
    getDoc (deleteDoc s k) k = none := by
  rw [getDoc_none_iff]
  simp [deleteDoc, List.any_eq_false, List.mem_filter]

/-- Marking one notification read keeps every key in place. -/
theorem markRead_map_any (s : NotifStore) (notId : String) :
    List.any
      (List.map (fun p => if p.1 = notId then (p.1, { p.2 with read := true }) else p) s)
      (fun p => p.1 = notId)
      = List.any s (fun p => p.1 = notId) := by
  induction s with
  | nil => rfl
  | cons q s ih => by_cases hq : q.1 = notId <;> simp [hq, ih]

/-- Marking one notification read twice is the same map as once. -/
theorem markRead_map_twice (s : NotifStore) (notId : String) :
    List.map (fun p => if p.1 = notId then (p.1, { p.2 with read := true }) else p)
      (List.map (fun p => if p.1 = notId then (p.1, { p.2 with read := true }) else p) s)
      = List.map (fun p => if p.1 = notId then (p.1, { p.2 with read := true }) else p) s := by
  induction s with
  | nil => rfl
  | cons q s ih => by_cases hq : q.1 = notId <;> simp [hq, ih]

/-- After marking, the matching notification's `read` flag is true. -/
theorem markRead_map_read (s : NotifStore) (notId : String) :
    ∀ p ∈ List.map (fun p => if p.1 = notId then (p.1, { p.2 with read := true }) else p) s,
      p.1 = notId → p.2.read = true := by
  induction s with
  | nil => simp
  | cons q s ih =>
      intro p hp hpk
      simp only [List.map_cons, List.mem_cons] at hp
      rcases hp with rfl | hp
      · by_cases hq : q.1 = notId
        · simp [hq]
        · rw [if_neg hq] at hpk
          exact absurd hpk hq
      · exact ih p hp hpk

/-- Marking read changes no field besides `read`. -/
theorem markRead_map_other_fields (s : NotifStore) (notId : String) :
    List.map (fun p => (p.1, p.2.message, p.2.txId))
      (List.map (fun p => if p.1 = notId then (p.1, { p.2 with read := true }) else p) s)
      = List.map (fun p => (p.1, p.2.message, p.2.txId)) s := by
  induction s with
  | nil => rfl
  | cons q s ih => by_cases hq : q.1 = notId <;> simp [hq, ih]

/-! ## Claims -/

/-- C1 counterexample: `confirm_payment` (`markPaymentReceived`) invoked
on a freshly created transaction — whose stored precondition
`paymentSent = true` does not hold — does not fail and does not leave the
record unchanged: the write is accepted and the record changes. -/
theorem markPaymentReceived_precondition_violation_cex :
    freshTx.paymentSent = false ∧
    markPaymentReceived freshTx ≠ freshTx ∧
    (markPaymentReceived freshTx).status = .payment_received ∧
    (markPaymentReceived freshTx).paymentReceived = true := by decide

/-- C1 (amended): the handlers perform no conditional update and no
ConflictError exists: the admin's confirm-payment button is offered
whatever the stored flags are, and `markPaymentReceived` commits
`paymentReceived = true, status = payment_received` unconditionally, in
particular when the stored precondition does not hold. -/
theorem confirm_payment_write_unconditional (v : Viewer) (tx : Transaction)
    (hadmin : v.isAdmin = true)
    (_hpre : tx.paymentSent = false ∨ tx.paymentReceived = true) :
    avail v .confirm_payment tx = true ∧
    markPaymentReceived tx
      = { tx with paymentReceived := true, status := .payment_received } :=
  ⟨hadmin, rfl⟩

/-- Witness for C1's amended theorem at the fresh transaction. -/
theorem confirm_payment_write_unconditional_witness :
    avail adminViewer .confirm_payment freshTx = true ∧
    markPaymentReceived freshTx
      = { freshTx with paymentReceived := true, status := .payment_received } :=
  confirm_payment_write_unconditional adminViewer freshTx (by decide)
    (Or.inl (by decide))

/-- C2 counterexample: alice, a buyer viewer of `paidTx`, invokes
`release_goods` (`markGoodsReleased`): no PermissionError occurs — the
handler has no permission check at all — and the record is mutated. -/
theorem buyer_release_goods_mutates_record_cex :
    userRole aliceViewer paidTx = .buyer ∧
    canView aliceViewer paidTx = true ∧
    markGoodsReleased paidTx ≠ paidTx ∧
    (markGoodsReleased paidTx).status = .goods_released := by decide

/-- C2 (amended): the release-goods button is never rendered for a buyer
viewer, but there is no PermissionError: `markGoodsReleased` itself
checks neither role nor status and commits its update unconditionally
for any caller who invokes it. -/
theorem release_goods_buyer_gating (v : Viewer) (tx : Transaction)
    (hrole : userRole v tx = .buyer) :
    avail v .release_goods tx = false ∧
    markGoodsReleased tx
      = { tx with goodsReleased := true, status := .goods_released } :=
  ⟨by simp [avail, hrole], rfl⟩

/-- Witness for C2's amended theorem: alice the buyer on `paidTx`. -/
theorem release_goods_buyer_gating_witness :
    avail aliceViewer .release_goods paidTx = false ∧
    markGoodsReleased paidTx
      = { paidTx with goodsReleased := true, status := .goods_released } :=
  release_goods_buyer_gating aliceViewer paidTx (by decide)

/-- C3 counterexample: from a freshly created transaction the admin's
ungated confirm-payment button gives a UI-available step that violates
the spec's transition table: `confirm_payment` fires with
`paymentSent = false`, jumping `pending_acceptance → payment_received`. -/
theorem gated_step_violates_spec_table_cex :
    canView adminViewer freshTx = true ∧
    avail adminViewer .confirm_payment freshTx = true ∧
    specTransitionPre .confirm_payment freshTx = false ∧
    freshTx.status = .pending_acceptance ∧
    (applyAction adminViewer .confirm_payment freshTx).status
      = .payment_received := by decide

/-- C3 (amended): along every UI-gated action sequence from a freshly
created transaction, `statusInv` holds and no step enters `completed`
(status or flag) unless `goodsReleased` was already true, nor
`goods_released` unless `paymentReceived` was already true — although
the full trajectory need not follow the spec's transition table. -/
theorem lifecycle_no_skipped_predecessor
    (allUsers : List (String × UserProfile)) (uid : String)
    (profile : UserProfile) (form : TxForm) (now : Nat)
    (id0 : String) (tx0 tx tx' : Transaction)
    (hc : createTransaction allUsers uid profile form now = some (id0, tx0))
    (hr : Reachable tx0 tx) (hs : Step tx tx') :
    statusInv tx ∧
    (tx'.status = .completed → tx.goodsReleased = true) ∧
    (tx'.status = .goods_released → tx.paymentReceived = true) ∧
    (tx'.completed = true → tx.goodsReleased = true) :=
  have hinv := statusInv_reachable (statusInv_create hc) hr
  ⟨hinv, step_no_skip hinv hs⟩

/-- Witness for C3's amended theorem: the fresh transaction and bob's
accept step. -/
theorem lifecycle_no_skipped_predecessor_witness :
    statusInv freshTx ∧
    ((applyAction bobViewer .accept freshTx).status = .completed →
      freshTx.goodsReleased = true) ∧
    ((applyAction bobViewer .accept freshTx).status = .goods_released →
      freshTx.paymentReceived = true) ∧
    ((applyAction bobViewer .accept freshTx).completed = true →
      freshTx.goodsReleased = true) :=
  lifecycle_no_skipped_predecessor demoUsers "alice" aliceProfile demoForm
    1700000000000 "TX1700000000000" freshTx freshTx
    (applyAction bobViewer .accept freshTx) (by decide)
    Relation.ReflTransGen.refl
    ⟨bobViewer, .accept, by decide, by decide, rfl⟩

/-- C4 counterexample: on a transaction with status `completed` the
delete button is hidden, but a confirmed `deleteTransaction` call
removes the record — there is no InvalidStateError and the record does
not survive. -/
theorem delete_completed_removes_record_cex :
    canDeleteTransaction completedTx = false ∧
    getDoc
      (deleteTransaction true [("TX1700000000000", completedTx)] "TX1700000000000")
      "TX1700000000000" = none := by decide

/-- C4 (amended): the deletable-status set gates only the rendering of
the delete button (`canDeleteTransaction` checks status membership
alone); the delete operation itself is unconditional — once confirmed it
removes the record whatever the status, and without confirmation it does
nothing. -/
theorem delete_guard_ui_only (tx : Transaction) (s : TxStore) (txId : String) :
    (canDeleteTransaction tx = true ↔
      (tx.status = .rejected ∨ tx.status = .pending_acceptance ∨
       tx.status = .waiting_payment ∨ tx.status = .awaiting_confirmation)) ∧
    getDoc (deleteTransaction true s txId) txId = none ∧
    deleteTransaction false s txId = s := by
  refine ⟨?_, getDoc_deleteDoc s txId, rfl⟩
  cases htx : tx.status <;> simp only [canDeleteTransaction, htx] <;> decide

/-- Witness for C4's amended theorem at the completed transaction. -/
theorem delete_guard_ui_only_witness :
    (canDeleteTransaction completedTx = true ↔
      (completedTx.status = .rejected ∨ completedTx.status = .pending_acceptance ∨
       completedTx.status = .waiting_payment ∨
       completedTx.status = .awaiting_confirmation)) ∧
    getDoc
      (deleteTransaction true [("TX1700000000000", completedTx)] "TX1700000000000")
      "TX1700000000000" = none ∧
    deleteTransaction false [("TX1700000000000", completedTx)] "TX1700000000000"
      = [("TX1700000000000", completedTx)] :=
  delete_guard_ui_only completedTx [("TX1700000000000", completedTx)]
    "TX1700000000000"

/-- C5 counterexample: `mark_refunded` on a rejected transaction is still
offered to the admin and does mutate the record (status becomes
`refunded`); moreover `refunded` is not enforced terminal — the admin's
confirm-payment button is still offered on the refunded record. -/
theorem refund_on_rejected_mutates_cex :
    rejectedTx.status = .rejected ∧
    avail adminViewer .refund rejectedTx = true ∧
    markRefunded rejectedTx ≠ rejectedTx ∧
    (markRefunded rejectedTx).status = .refunded ∧
    avail adminViewer .confirm_payment (markRefunded rejectedTx) = true := by
  decide

/-- C5 (amended): `markRefunded`, offered to an admin on every
transaction (including rejected ones), sets `status = refunded` and
resets `completed` to false while leaving the other flags; `refunded` is
not enforced terminal — admin actions remain available afterwards. -/
theorem mark_refunded_unconditional (v : Viewer) (tx : Transaction)
    (hadmin : v.isAdmin = true) :
    avail v .refund tx = true ∧
    (markRefunded tx).status = .refunded ∧
    (markRefunded tx).completed = false ∧
    (markRefunded tx).paymentSent = tx.paymentSent ∧
    (markRefunded tx).paymentReceived = tx.paymentReceived ∧
    (markRefunded tx).goodsReleased = tx.goodsReleased ∧
    avail v .confirm_payment (markRefunded tx) = true ∧
    avail v .under_review (markRefunded tx) = true :=
  ⟨hadmin, rfl, rfl, rfl, rfl, rfl, hadmin, hadmin⟩

/-- Witness for C5's amended theorem at the completed transaction
(the documented monotonicity exception). -/
theorem mark_refunded_unconditional_witness :
    avail adminViewer .refund completedTx = true ∧
    (markRefunded completedTx).status = .refunded ∧
    (markRefunded completedTx).completed = false ∧
    (markRefunded completedTx).paymentSent = completedTx.paymentSent ∧
    (markRefunded completedTx).paymentReceived = completedTx.paymentReceived ∧
    (markRefunded completedTx).goodsReleased = completedTx.goodsReleased ∧
    avail adminViewer .confirm_payment (markRefunded completedTx) = true ∧
    avail adminViewer .under_review (markRefunded completedTx) = true :=
  mark_refunded_unconditional adminViewer completedTx rfl

/-- C6: for every transition handler and every failure pattern of the
side-effect writes, the `transactions` collection ends exactly as the
primary `updateDoc` left it — audit/notification failures are swallowed
and never roll back the committed change (the handlers are total, so the
caller always observes success); and when the document is absent the
primary write cannot commit and no audit entry or notification is
written. -/
theorem side_effects_after_commit_persist (f : Failures) (caller : Viewer)
    (username : String) (allUsers : List (String × UserProfile))
    (txId reason : String) (w : World) :
    ((markPaymentSentFull f caller username allUsers txId w).txs
        = (updateTx w.txs txId markPaymentSent).1) ∧
    ((markPaymentReceivedFull f caller txId w).txs
        = (updateTx w.txs txId markPaymentReceived).1) ∧
    ((markGoodsReleasedFull f caller txId w).txs
        = (updateTx w.txs txId markGoodsReleased).1) ∧
    ((approveFundsFull f caller txId w).txs
        = (updateTx w.txs txId approveFunds).1) ∧
    ((rejectTransactionFull f caller username txId w).txs
        = (updateTx w.txs txId rejectTransaction).1) ∧
    ((markUnderReviewFull f caller txId reason w).txs
        = (updateTx w.txs txId markUnderReview).1) ∧
    ((markRefundedFull f caller txId reason w).txs
        = (updateTx w.txs txId markRefunded).1) ∧
    (f.getFails = false →
      (acceptTransactionFull f caller username txId w).txs
        = (updateTx w.txs txId (acceptTransaction caller.wallet)).1) ∧
    (getDoc w.txs txId = none →
      markPaymentReceivedFull f caller txId w = w ∧
      acceptTransactionFull f caller username txId w = w) :=
  ⟨markPaymentSentFull_txs f caller username allUsers txId w,
   markPaymentReceivedFull_txs f caller txId w,
   markGoodsReleasedFull_txs f caller txId w,
   approveFundsFull_txs f caller txId w,
   rejectTransactionFull_txs f caller username txId w,
   markUnderReviewFull_txs f caller txId reason w,
   markRefundedFull_txs f caller txId reason w,
   fun hg => acceptTransactionFull_txs f caller username txId w hg,
   fun h => ⟨markPaymentReceivedFull_no_commit h,
             acceptTransactionFull_no_commit h⟩⟩

/-- Witness for C6: a run in which every side-effect write throws still
leaves the confirm-payment update committed. -/
theorem side_effects_after_commit_persist_witness :
    (markPaymentReceivedFull allFail adminViewer "TX1700000000000" demoWorld).txs
      = (updateTx demoWorld.txs "TX1700000000000" markPaymentReceived).1 :=
  (side_effects_after_commit_persist allFail adminViewer "alice" demoUsers
    "TX1700000000000" "reason" demoWorld).2.1

/-- C7: accept sets `status = waiting_payment` and fills exactly the
invited party's wallet field from the caller's (the invited party's)
profile wallet, leaving the other wallet field unchanged; and the accept
button is only available when `status = pending_acceptance`. -/
theorem accept_fills_invited_wallet (v : Viewer) (tx : Transaction)
    (callerWallet : String) :
    (acceptTransaction callerWallet tx).status = .waiting_payment ∧
    (tx.invitedRole = .seller →
      (acceptTransaction callerWallet tx).sellerWallet = callerWallet ∧
      (acceptTransaction callerWallet tx).buyerWallet = tx.buyerWallet) ∧
    (tx.invitedRole = .buyer →
      (acceptTransaction callerWallet tx).buyerWallet = callerWallet ∧
      (acceptTransaction callerWallet tx).sellerWallet = tx.sellerWallet) ∧
    (avail v .accept tx = true → tx.status = .pending_acceptance) := by
  refine ⟨rfl, ?_, ?_, ?_⟩
  · intro h
    constructor <;> simp [acceptTransaction, h]
  · intro h
    constructor <;> simp [acceptTransaction, h]
  · intro h
    simp only [avail, Bool.and_eq_true, decide_eq_true_eq] at h
    exact h.1

/-- Witness for C7: bob accepting the fresh transaction. -/
theorem accept_fills_invited_wallet_witness :
    (acceptTransaction "wB" freshTx).status = .waiting_payment ∧
    (freshTx.invitedRole = .seller →
      (acceptTransaction "wB" freshTx).sellerWallet = "wB" ∧
      (acceptTransaction "wB" freshTx).buyerWallet = freshTx.buyerWallet) ∧
    (freshTx.invitedRole = .buyer →
      (acceptTransaction "wB" freshTx).buyerWallet = "wB" ∧
      (acceptTransaction "wB" freshTx).sellerWallet = freshTx.sellerWallet) ∧
    (avail bobViewer .accept freshTx = true →
      freshTx.status = .pending_acceptance) :=
  accept_fills_invited_wallet bobViewer freshTx "wB"

/-- C8: a created transaction has `participants = [creator, invited]`
with the two uids distinct and the two roles complementary, and no
engine action ever changes `participants`, `creator`, `invited` or
either role field. -/
theorem participants_roles_invariant
    (allUsers : List (String × UserProfile)) (uid : String)
    (profile : UserProfile) (form : TxForm) (now : Nat) (id : String)
    (tx : Transaction) (v : Viewer) (a : Action)
    (hc : createTransaction allUsers uid profile form now = some (id, tx)) :
    tx.participants = [tx.creator, tx.invited] ∧
    tx.creator ≠ tx.invited ∧
    tx.invitedRole = complementRole tx.creatorRole ∧
    (∀ u : Transaction,
      (applyAction v a u).participants = u.participants ∧
      (applyAction v a u).creator = u.creator ∧
      (applyAction v a u).invited = u.invited ∧
      (applyAction v a u).creatorRole = u.creatorRole ∧
      (applyAction v a u).invitedRole = u.invitedRole) := by
  obtain ⟨-, -, hcr, hcrR, hinvR, hne, hpart, -, -, -, -, -, -⟩ :=
    createTransaction_spec hc
  refine ⟨?_, ?_, ?_, ?_⟩
  · rw [hpart, hcr]
  · rw [hcr]
    exact fun hx => hne hx.symm
  · rw [hinvR, hcrR]
  · intro u
    cases a <;> exact ⟨rfl, rfl, rfl, rfl, rfl⟩

/-- Witness for C8 at the concrete create. -/
theorem participants_roles_invariant_witness :
    freshTx.participants = [freshTx.creator, freshTx.invited] ∧
    freshTx.creator ≠ freshTx.invited ∧
    freshTx.invitedRole = complementRole freshTx.creatorRole ∧
    (∀ u : Transaction,
      (applyAction bobViewer .accept u).participants = u.participants ∧
      (applyAction bobViewer .accept u).creator = u.creator ∧
      (applyAction bobViewer .accept u).invited = u.invited ∧
      (applyAction bobViewer .accept u).creatorRole = u.creatorRole ∧
      (applyAction bobViewer .accept u).invitedRole = u.invitedRole) :=
  participants_roles_invariant demoUsers "alice" aliceProfile demoForm
    1700000000000 "TX1700000000000" freshTx bobViewer .accept (by decide)

/-- C9: after a successful `markRead`, a second `markRead` on the same
notification id succeeds as well, changes nothing, leaves `read = true`
for that id, and no field other than `read` differs from the original
collection. -/
theorem markRead_idempotent (s : NotifStore) (notId : String)
    (h : (markNotificationRead s notId).2 = true) :
    (markNotificationRead (markNotificationRead s notId).1 notId).2 = true ∧
    (markNotificationRead (markNotificationRead s notId).1 notId).1
      = (markNotificationRead s notId).1 ∧
    (∀ p ∈ (markNotificationRead s notId).1, p.1 = notId → p.2.read = true) ∧
    List.map (fun p => (p.1, p.2.message, p.2.txId))
        (markNotificationRead s notId).1
      = List.map (fun p => (p.1, p.2.message, p.2.txId)) s := by
  have hany : List.any s (fun p => p.1 = notId) = true := by
    by_contra hn
    rw [Bool.not_eq_true] at hn
    unfold markNotificationRead at h
    rw [if_neg (by simp [hn])] at h
    exact Bool.false_ne_true h
  unfold markNotificationRead
  rw [if_pos hany]
  refine ⟨?_, ?_, markRead_map_read s notId, markRead_map_other_fields s notId⟩
  · rw [markRead_map_any, if_pos hany]
  · rw [markRead_map_any, if_pos hany]
    exact markRead_map_twice s notId

/-- Witness for C9 at the concrete notification collection. -/
theorem markRead_idempotent_witness :
    (markNotificationRead (markNotificationRead demoNotifs "n1").1 "n1").2
      = true ∧
    (markNotificationRead (markNotificationRead demoNotifs "n1").1 "n1").1
      = (markNotificationRead demoNotifs "n1").1 ∧
    (∀ p ∈ (markNotificationRead demoNotifs "n1").1,
      p.1 = "n1" → p.2.read = true) ∧
    List.map (fun p => (p.1, p.2.message, p.2.txId))
        (markNotificationRead demoNotifs "n1").1
      = List.map (fun p => (p.1, p.2.message, p.2.txId)) demoNotifs :=
  markRead_idempotent demoNotifs "n1" (by decide)

/-- C10: the new-transaction id is exactly `"TX" ++ milliseconds`, so two
creates in the same millisecond derive the same id, and the second
(unconditional) `setDoc` under that id silently replaces the first
record. -/
theorem create_id_collision_overwrites
    (allUsers1 allUsers2 : List (String × UserProfile)) (uid1 uid2 : String)
    (p1 p2 : UserProfile) (f1 f2 : TxForm) (now : Nat) (s : TxStore)
    (id1 id2 : String) (tx1 tx2 : Transaction)
    (h1 : createTransaction allUsers1 uid1 p1 f1 now = some (id1, tx1))
    (h2 : createTransaction allUsers2 uid2 p2 f2 now = some (id2, tx2)) :
    id1 = mkTxId now ∧ id2 = id1 ∧
    getDoc (setDoc (setDoc s id1 tx1) id2 tx2) id1 = some tx2 := by
  obtain ⟨e1, -, -, -, -, -, -, -, -, -, -, -, -⟩ := createTransaction_spec h1
  obtain ⟨e2, -, -, -, -, -, -, -, -, -, -, -, -⟩ := createTransaction_spec h2
  subst e1
  subst e2
  exact ⟨rfl, rfl, getDoc_setDoc_self _ _ _⟩

/-- Witness for C10: alice's and bob's creates in the same millisecond
collide and the later record wins. -/
theorem create_id_collision_overwrites_witness :
    "TX1700000000000" = mkTxId 1700000000000 ∧
    "TX1700000000000" = "TX1700000000000" ∧
    getDoc (setDoc (setDoc [] "TX1700000000000" freshTx) "TX1700000000000" freshTx2)
      "TX1700000000000" = some freshTx2 :=
  create_id_collision_overwrites demoUsers demoUsers "alice" "bob" aliceProfile
    bobProfile demoForm demoForm2 1700000000000 [] "TX1700000000000"
    "TX1700000000000" freshTx freshTx2 (by decide) (by decide)

end CryptoEscrow
